import Mathlib

/-
Verification of the directory-resolution library (src/src/lib.rs).

The library exposes three pure lookups, config_dir / data_dir / cache_dir,
each a function of the compile-time target OS, the compile-time feature
flag favor-xdg-style, the process environment and the OS home-directory
query.  We embed them shallowly:

  * an OS-native string (std::ffi::OsString) is a list of naturals, one
    per byte on Unix (code unit on Windows); arbitrary byte values model
    non-UTF-8 content;
  * the process environment is a function from variable names to an
    optional OS string (std::env::var_os);
  * std::env::home_dir on Unix returns HOME when set and non-empty, and
    otherwise falls back to the user-database lookup (getpwuid_r); the
    fallback is an OS query outside the environment, modelled as the
    extra input pw;
  * PathBuf::push with the Unix path semantics used by the library;
    PathBuf::from on an OsString is the identity on the underlying
    bytes, so the .map(PathBuf::from) steps of the source disappear.

The target OS and the feature flag become explicit parameters of the
three operations, mirroring the cfg! branches of the source.
-/

namespace DirsLite

/-- An OS-native string: the bytes of a std::ffi::OsString. Arbitrary
naturals stand for arbitrary bytes, so non-UTF-8 content (for example
the byte 255) is representable. -/
abbrev OsString := List Nat

/-- Bytes of an ASCII string literal, used to embed the path literals of
the source (all of which are ASCII). -/
def osStr (s : String) : OsString := s.data.map Char.toNat

/-- A snapshot of the process environment, as read by std::env::var_os:
each variable name maps to its raw OS-native value, or to none when the
variable is unset. -/
abbrev Env := String → Option OsString

/-- std::env::var_os. -/
def var_os (e : Env) (k : String) : Option OsString := e k

/-- The environment with variable k set to value v. -/
def setVar (e : Env) (k : String) (v : OsString) : Env :=
  fun q => if q = k then some v else e q

/-- The environment with variable k unset. -/
def unsetVar (e : Env) (k : String) : Env :=
  fun q => if q = k then none else e q

/-- The environment with the binding of variable k replaced by ov
(some value, or none for unset). -/
def updVar (e : Env) (k : String) (ov : Option OsString) : Env :=
  fun q => if q = k then ov else e q

/-- The Unix path separator byte, the character / (47). -/
def sepByte : Nat := 47

/-- Source constant CONFIG_DIR = ".config" (src/src/lib.rs line 4). -/
def CONFIG_DIR : OsString := osStr ".config"

/-- Source constant DATA_DIR = ".local/share" (src/src/lib.rs line 5). -/
def DATA_DIR : OsString := osStr ".local/share"

/-- Source constant CACHE_DIR = ".cache" (src/src/lib.rs line 6). -/
def CACHE_DIR : OsString := osStr ".cache"

/-- The need_sep test of PathBuf::push on Unix: a separator is needed
when the rightmost byte of the base exists and is not a separator. -/
def need_sep (base : OsString) : Bool :=
  match base.getLast? with
  | some c => decide (c ≠ sepByte)
  | none => false

/-- PathBuf::push on Unix.  A pushed path that is absolute (starts with
the separator) replaces the base; otherwise the pushed bytes are
appended, preceded by a separator when needed. -/
def push (base p : OsString) : OsString :=
  if p.head? = some sepByte then p
  else if need_sep base then base ++ sepByte :: p
  else base ++ p

/-- std::env::home_dir on Unix-like targets: the value of the HOME
environment variable if it is set and non-empty, otherwise the home
directory from the OS user database (getpwuid_r).  The user-database
answer is an input from outside the process environment, passed here as
pw. -/
def home_dir (e : Env) (pw : Option OsString) : Option OsString :=
  ((var_os e "HOME").filter (fun s => !s.isEmpty)).orElse (fun _ => pw)

/-- The compile-time target OS: the three cfg! branches of the source
plus the final else branch, which covers every other OS. -/
inductive TargetOS
  | linux
  | macos
  | windows
  | other
deriving DecidableEq

/-- config_dir (src/src/lib.rs lines 19-49).  The favor-xdg-style
feature flag is the boolean parameter f. -/
def config_dir (os : TargetOS) (f : Bool) (e : Env) (pw : Option OsString) :
    Option OsString :=
  match os with
  | .linux =>
      (((var_os e "XDG_CONFIG_HOME").filter (fun s => !s.isEmpty)).orElse
          (fun _ => home_dir e pw)).map
        (fun base => push base CONFIG_DIR)
  | .macos =>
      (home_dir e pw).map (fun home =>
        if f then push home CONFIG_DIR
        else push (push home (osStr "Library")) (osStr "Application Support"))
  | .windows =>
      (var_os e "APPDATA").filter (fun s => !s.isEmpty)
  | .other => none

/-- data_dir (src/src/lib.rs lines 62-93). -/
def data_dir (os : TargetOS) (f : Bool) (e : Env) (pw : Option OsString) :
    Option OsString :=
  match os with
  | .linux =>
      ((var_os e "XDG_DATA_HOME").filter (fun s => !s.isEmpty)).orElse
        (fun _ => (home_dir e pw).map (fun home => push home DATA_DIR))
  | .macos =>
      (home_dir e pw).map (fun home =>
        if f then push home DATA_DIR
        else push (push home (osStr "Library")) (osStr "Application Support"))
  | .windows =>
      (var_os e "LOCALAPPDATA").filter (fun s => !s.isEmpty)
  | .other => none

/-- cache_dir (src/src/lib.rs lines 106-137). -/
def cache_dir (os : TargetOS) (f : Bool) (e : Env) (pw : Option OsString) :
    Option OsString :=
  match os with
  | .linux =>
      ((var_os e "XDG_CACHE_HOME").filter (fun s => !s.isEmpty)).orElse
        (fun _ => (home_dir e pw).map (fun home => push home CACHE_DIR))
  | .macos =>
      (home_dir e pw).map (fun home =>
        if f then push home CACHE_DIR
        else push (push home (osStr "Library")) (osStr "Caches"))
  | .windows =>
      (var_os e "LOCALAPPDATA").filter (fun s => !s.isEmpty)
  | .other => none

/-
Spec-side definitions for the refinement claim: the resolution
primitive of spec section 4.2 and the decision tables of section 4.3,
written from the words of the spec so that they can be compared with
the operations embedded above from the source.
-/

/-- Spec section 4.1 lookup_env: the raw environment value, with an
empty value treated as absence. -/
def lookup_env (e : Env) (k : String) : Option OsString :=
  (e k).filter (fun s => !s.isEmpty)

/-- Spec section 4.2 resolve primitive, following the spec pseudocode:
when an env key is given and its value is present and non-empty, that
value itself; otherwise, when a home suffix is given and home() is
present, home joined with the suffix; otherwise absence.  home() is the
same home primitive the source uses (home_dir). -/
def resolve (e : Env) (pw : Option OsString)
    (envKey : Option String) (homeSfx : Option OsString) : Option OsString :=
  match envKey.bind (fun k => lookup_env e k) with
  | some v => some v
  | none =>
    match homeSfx with
    | some sfx => (home_dir e pw).map (fun h => push h sfx)
    | none => none

/-- Spec constant APPLE_APP_SUPPORT = "Library/Application Support". -/
def APPLE_APP_SUPPORT : OsString := osStr "Library/Application Support"

/-- Spec constant APPLE_CACHES = "Library/Caches". -/
def APPLE_CACHES : OsString := osStr "Library/Caches"

/-- Env-key column of the spec section 4.3 table for config_dir. -/
def configEnvKey : TargetOS → Option String
  | .linux => some "XDG_CONFIG_HOME"
  | .windows => some "APPDATA"
  | _ => none

/-- Home-suffix column of the spec section 4.3 table for config_dir. -/
def configHomeSfx (os : TargetOS) (f : Bool) : Option OsString :=
  match os with
  | .linux => some CONFIG_DIR
  | .macos => some (if f then CONFIG_DIR else APPLE_APP_SUPPORT)
  | _ => none

/-- Env-key column of the spec section 4.3 table for data_dir. -/
def dataEnvKey : TargetOS → Option String
  | .linux => some "XDG_DATA_HOME"
  | .windows => some "LOCALAPPDATA"
  | _ => none

/-- Home-suffix column of the spec section 4.3 table for data_dir. -/
def dataHomeSfx (os : TargetOS) (f : Bool) : Option OsString :=
  match os with
  | .linux => some DATA_DIR
  | .macos => some (if f then DATA_DIR else APPLE_APP_SUPPORT)
  | _ => none

/-- Env-key column of the spec section 4.3 table for cache_dir. -/
def cacheEnvKey : TargetOS → Option String
  | .linux => some "XDG_CACHE_HOME"
  | .windows => some "LOCALAPPDATA"
  | _ => none

/-- Home-suffix column of the spec section 4.3 table for cache_dir. -/
def cacheHomeSfx (os : TargetOS) (f : Bool) : Option OsString :=
  match os with
  | .linux => some CACHE_DIR
  | .macos => some (if f then CACHE_DIR else APPLE_CACHES)
  | _ => none

/-- The spec section 4.2 resolve primitive instantiated with the
config_dir row of the section 4.3 table. -/
def spec_config_dir (os : TargetOS) (f : Bool) (e : Env) (pw : Option OsString) :
    Option OsString :=
  resolve e pw (configEnvKey os) (configHomeSfx os f)

/-- The spec section 4.2 resolve primitive instantiated with the
data_dir row of the section 4.3 table. -/
def spec_data_dir (os : TargetOS) (f : Bool) (e : Env) (pw : Option OsString) :
    Option OsString :=
  resolve e pw (dataEnvKey os) (dataHomeSfx os f)

/-- The spec section 4.2 resolve primitive instantiated with the
cache_dir row of the section 4.3 table. -/
def spec_cache_dir (os : TargetOS) (f : Bool) (e : Env) (pw : Option OsString) :
    Option OsString :=
  resolve e pw (cacheEnvKey os) (cacheHomeSfx os f)

/-
Path absoluteness, per OS.  On Unix, Path::is_absolute is has_root:
the path starts with the separator.  On Windows it is
has_root && self.prefix().is_some(); the Windows path-prefix parser of
the Rust standard library is embedded below.
-/

/-- Windows separator test is_sep_byte: / or backslash. -/
def isSepByteW (c : Nat) : Bool := c == 47 || c == 92

/-- Windows verbatim separator test is_verbatim_sep: backslash only. -/
def isVerbatimSepW (c : Nat) : Bool := c == 92

/-- ASCII alphabetic byte. -/
def isAsciiAlpha (c : Nat) : Bool :=
  decide (65 ≤ c ∧ c ≤ 90) || decide (97 ≤ c ∧ c ≤ 122)

/-- ASCII upper-casing of a byte. -/
def toUpperByte (c : Nat) : Nat := if 97 ≤ c ∧ c ≤ 122 then c - 32 else c

/-- Strip a literal leading byte sequence, or fail. -/
def stripLit (lit p : OsString) : Option OsString :=
  if lit.isPrefixOf p then some (p.drop lit.length) else none

/-- Windows path-prefix forms, as in std::path::Prefix. -/
inductive WinPfx
  | verbatim (s : OsString)
  | verbatimUNC (server share : OsString)
  | verbatimDisk (d : Nat)
  | deviceNS (s : OsString)
  | unc (server share : OsString)
  | disk (d : Nat)

/-- Length in code units of a Windows path prefix (std::path::Prefix::len). -/
def WinPfx.len : WinPfx → Nat
  | .verbatim s => 4 + s.length
  | .verbatimUNC x y => 8 + x.length + (if 0 < y.length then 1 + y.length else 0)
  | .verbatimDisk _ => 6
  | .deviceNS s => 4 + s.length
  | .unc x y => 2 + x.length + (if 0 < y.length then 1 + y.length else 0)
  | .disk _ => 2

/-- Whether a Windows path prefix has an implicit root: every form
except a bare drive (std::path::Prefix::has_implicit_root). -/
def WinPfx.hasImplicitRoot : WinPfx → Bool
  | .disk _ => false
  | _ => true

/-- parse_drive of the Rust standard library Windows path module: a
leading ASCII letter followed by a colon. -/
def parseDrive (p : OsString) : Option Nat :=
  match p with
  | d :: c :: _ => if c = 58 ∧ isAsciiAlpha d then some (toUpperByte d) else none
  | _ => none

/-- parse_next_two_components of the Rust standard library Windows path
module: the two components before the first two separators, the
separator being the verbatim one when verbatim is set. -/
def parseTwoComps (verbatim : Bool) (p : OsString) : OsString × OsString :=
  let sep := if verbatim then isVerbatimSepW else isSepByteW
  let first := p.takeWhile (fun c => !(sep c))
  let rest := (p.drop first.length).drop 1
  let second := rest.takeWhile (fun c => !(sep c))
  (first, second)

/-- parse_prefix of the Rust standard library Windows path module. -/
def parsePfx (p : OsString) : Option WinPfx :=
  match stripLit (osStr "\\\\") p with
  | some p1 =>
    match stripLit (osStr "?\\") p1 with
    | some p2 =>
      match stripLit (osStr "UNC\\") p2 with
      | some p3 =>
        let sc := parseTwoComps true p3
        some (.verbatimUNC sc.1 sc.2)
      | none =>
        let front := p2.takeWhile (fun c => decide (c ≠ 92))
        match p2 with
        | c :: 58 :: 92 :: _ =>
          if isAsciiAlpha c then some (.verbatimDisk (toUpperByte c))
          else some (.verbatim front)
        | _ => some (.verbatim front)
    | none =>
      match stripLit (osStr ".\\") p1 with
      | some p2 =>
        some (.deviceNS (p2.takeWhile (fun c => !(isSepByteW c))))
      | none =>
        let sc := parseTwoComps false p1
        if sc.1 ≠ [] ∧ sc.2 ≠ [] then some (.unc sc.1 sc.2) else none
  | none => (parseDrive p).map .disk

/-- has_physical_root on Windows: a separator right after the parsed
path prefix (or at the start when there is no prefix). -/
def hasPhysicalRootW (p : OsString) : Bool :=
  let rest :=
    match parsePfx p with
    | some pre => p.drop pre.len
    | none => p
  match rest with
  | c :: _ => isSepByteW c
  | [] => false

/-- Path::has_root on Windows: a physical root after the prefix, or a
prefix with an implicit root. -/
def hasRootW (p : OsString) : Bool :=
  hasPhysicalRootW p ||
    (match parsePfx p with
     | some pre => pre.hasImplicitRoot
     | none => false)

/-- Path::is_absolute under the path semantics of the given OS: on
Windows has_root together with a recognized prefix, on the Unix-like
targets a leading separator. -/
def is_absolute (os : TargetOS) (p : OsString) : Bool :=
  match os with
  | .windows => hasRootW p && (parsePfx p).isSome
  | _ => p.head? == some sepByte

/-- The spec invariant I1 source condition: every value a query can
draw from — the six consulted environment variables and the
user-database home — is absolute under the path semantics of the
target OS. -/
def absSources (os : TargetOS) (e : Env) (pw : Option OsString) : Bool :=
  (["XDG_CONFIG_HOME", "XDG_DATA_HOME", "XDG_CACHE_HOME",
    "HOME", "APPDATA", "LOCALAPPDATA"].all
      (fun k => (e k).all (is_absolute os))) &&
    pw.all (is_absolute os)

/-
Concrete environments used by the witness and counterexample theorems.
-/

/-- Environment of spec scenario 1: XDG_CONFIG_HOME=/custom/config. -/
def envC1 : Env :=
  fun k => if k = "XDG_CONFIG_HOME" then some (osStr "/custom/config") else none

/-- Environment with only the data XDG override set: XDG_CACHE_HOME
and HOME are unset. -/
def envDataOnly : Env :=
  fun k => if k = "XDG_DATA_HOME" then some (osStr "/custom/data") else none

/-- Environment with only the cache XDG override set: XDG_DATA_HOME
and HOME are unset. -/
def envCacheOnly : Env :=
  fun k => if k = "XDG_CACHE_HOME" then some (osStr "/custom/cache") else none

/-- Environment whose XDG_CONFIG_HOME holds a relative path. -/
def envRelXdg : Env :=
  fun k => if k = "XDG_CONFIG_HOME" then some (osStr "rel") else none

/-- Environment in which every variable holds the absolute path /abs. -/
def envAllAbs : Env := fun _ => some (osStr "/abs")

/-- macOS test environment: HOME=/Users/testuser. -/
def envMacHome : Env :=
  fun k => if k = "HOME" then some (osStr "/Users/testuser") else none

/-- macOS test environment with an XDG override also set. -/
def envMacHomeXdg : Env :=
  fun k =>
    if k = "XDG_CONFIG_HOME" then some (osStr "/xdg")
    else if k = "HOME" then some (osStr "/Users/testuser") else none

/-- The non-UTF-8 byte string of spec scenario 9: "/tmp/" followed by
the bytes 255 and 254. -/
def nonUtf8Base : OsString := osStr "/tmp/" ++ [255, 254]

/-- A non-UTF-8 byte string with a trailing separator: "/tmp/"
followed by the byte 255 and the separator 47. -/
def nonUtf8SlashBase : OsString := osStr "/tmp/" ++ [255, 47]

/-- Environment with the data and cache XDG overrides set to non-UTF-8
bytes that end in a separator. -/
def envNonUtf8Slash : Env :=
  fun k =>
    if k = "XDG_DATA_HOME" then some nonUtf8SlashBase
    else if k = "XDG_CACHE_HOME" then some nonUtf8SlashBase
    else none

/-- Environment with all three XDG overrides set to non-UTF-8 bytes. -/
def envNonUtf8 : Env :=
  fun k =>
    if k = "XDG_CONFIG_HOME" then some nonUtf8Base
    else if k = "XDG_DATA_HOME" then some nonUtf8Base
    else if k = "XDG_CACHE_HOME" then some nonUtf8Base
    else none

lemma filter_nonEmpty_some {v : OsString} (h : v ≠ []) :
    (some v).filter (fun s => !s.isEmpty) = some v := by
  cases v with
  | nil => exact absurd rfl h
  | cons a t => rfl

lemma need_sep_true {p : OsString} (hp : p ≠ []) (hpl : p.getLast? ≠ some sepByte) :
    need_sep p = true := by
  unfold need_sep
  cases hgl : p.getLast? with
  | none => exact absurd (List.getLast?_eq_none_iff.mp hgl) hp
  | some c =>
    simp only [decide_eq_true_eq]
    intro hc
    exact hpl (by rw [hgl, hc])

lemma need_sep_append_right (l r : OsString) (hr : r ≠ []) :
    need_sep (l ++ r) = need_sep r := by
  unfold need_sep
  rw [List.getLast?_append_of_ne_nil l hr]

lemma need_sep_cons_tail (c : Nat) {p : OsString} (hp : p ≠ []) :
    need_sep (c :: p) = need_sep p := by
  rw [← List.singleton_append, need_sep_append_right _ _ hp]

lemma push_eq_append {base p : OsString} (hph : p.head? ≠ some sepByte)
    (hb : base ≠ []) (hbl : base.getLast? ≠ some sepByte) :
    push base p = base ++ sepByte :: p := by
  unfold push
  rw [if_neg hph, if_pos (need_sep_true hb hbl)]

lemma push_head_abs {base : OsString} (p : OsString) (hb : base.head? = some sepByte) :
    (push base p).head? = some sepByte := by
  cases base with
  | nil => simp at hb
  | cons a t =>
    simp only [List.head?_cons, Option.some.injEq] at hb
    subst hb
    unfold push
    by_cases hp : p.head? = some sepByte
    · simp [hp]
    · rw [if_neg hp]
      split <;> simp

lemma push_length {base p : OsString} (hph : p.head? ≠ some sepByte) (hp : p ≠ []) :
    base.length < (push base p).length := by
  have hlen : 0 < p.length := List.length_pos.mpr hp
  unfold push
  rw [if_neg hph]
  split <;> (simp only [List.length_append, List.length_cons]; omega)

lemma push_push (h p q : OsString) (hp : p ≠ []) (hph : p.head? ≠ some sepByte)
    (hqh : q.head? ≠ some sepByte) (hpl : p.getLast? ≠ some sepByte) :
    push (push h p) q = push h (p ++ sepByte :: q) := by
  have hq2 : (p ++ sepByte :: q).head? ≠ some sepByte := by
    rw [List.head?_append_of_ne_nil p hp]; exact hph
  by_cases hns : need_sep h = true
  · have hinner : push h p = h ++ sepByte :: p := by
      unfold push; rw [if_neg hph, if_pos hns]
    have hout : need_sep (h ++ sepByte :: p) = true := by
      rw [need_sep_append_right _ _ (by simp), need_sep_cons_tail _ hp]
      exact need_sep_true hp hpl
    rw [hinner]
    unfold push
    rw [if_neg hqh, if_pos hout, if_neg hq2, if_pos hns]
    simp
  · have hinner : push h p = h ++ p := by
      unfold push; rw [if_neg hph, if_neg hns]
    have hout : need_sep (h ++ p) = true := by
      rw [need_sep_append_right _ _ hp]
      exact need_sep_true hp hpl
    rw [hinner]
    unfold push
    rw [if_neg hqh, if_pos hout, if_neg hq2, if_neg hns]
    simp

lemma push_lib_app_support (h : OsString) :
    push (push h (osStr "Library")) (osStr "Application Support")
      = push h APPLE_APP_SUPPORT := by
  have harg : osStr "Library" ++ sepByte :: osStr "Application Support"
      = APPLE_APP_SUPPORT := by decide
  rw [push_push h _ _ (by decide) (by decide) (by decide) (by decide), harg]

lemma push_lib_caches (h : OsString) :
    push (push h (osStr "Library")) (osStr "Caches") = push h APPLE_CACHES := by
  have harg : osStr "Library" ++ sepByte :: osStr "Caches" = APPLE_CACHES := by
    decide
  rw [push_push h _ _ (by decide) (by decide) (by decide) (by decide), harg]

lemma filter_set_unset (e : Env) (k q : String) :
    ((setVar e k []) q).filter (fun s => !s.isEmpty)
      = ((unsetVar e k) q).filter (fun s => !s.isEmpty) := by
  unfold setVar unsetVar
  by_cases hq : q = k
  · rw [if_pos hq, if_pos hq]
    rfl
  · rw [if_neg hq, if_neg hq]

lemma home_dir_set_unset (e : Env) (k : String) (pw : Option OsString) :
    home_dir (setVar e k []) pw = home_dir (unsetVar e k) pw := by
  unfold home_dir var_os
  rw [filter_set_unset]

lemma upd_ne (e : Env) (k : String) (ov : Option OsString) {q : String}
    (h : q ≠ k) : (updVar e k ov) q = e q :=
  if_neg h

lemma home_dir_upd_ne (e : Env) (k : String) (ov : Option OsString)
    (pw : Option OsString) (hk : k ≠ "HOME") :
    home_dir (updVar e k ov) pw = home_dir e pw := by
  unfold home_dir var_os
  rw [upd_ne e k ov (fun h => hk h.symm)]

lemma filter_empty_eq_none_iff (o : Option OsString) :
    o.filter (fun s => !s.isEmpty) = none ↔ o = none ∨ o = some [] := by
  cases o with
  | none => simp
  | some v =>
    cases v with
    | nil => simp
    | cons a t => simp [Option.filter]

lemma opt_all_filter (o : Option OsString) (q pr : OsString → Bool)
    (h : o.all pr = true) : (o.filter q).all pr = true := by
  cases o with
  | none => rfl
  | some v =>
    simp only [Option.filter]
    split
    · simpa using h
    · rfl

lemma opt_all_orElse (o o2 : Option OsString) (pr : OsString → Bool)
    (h1 : o.all pr = true) (h2 : o2.all pr = true) :
    (o.orElse fun _ => o2).all pr = true := by
  cases o with
  | none => exact h2
  | some v => exact h1

lemma home_dir_all (e : Env) (pw : Option OsString) (pr : OsString → Bool)
    (h1 : (e "HOME").all pr = true) (h2 : pw.all pr = true) :
    (home_dir e pw).all pr = true :=
  opt_all_orElse _ _ _ (opt_all_filter _ _ _ h1) h2

lemma opt_all_map (o : Option OsString) (F : OsString → OsString)
    (hF : ∀ b, b.head? = some sepByte → (F b).head? = some sepByte)
    (h : o.all (fun b => b.head? == some sepByte) = true) :
    (o.map F).all (fun b => b.head? == some sepByte) = true := by
  cases o with
  | none => rfl
  | some v =>
    simp only [Option.map_some', Option.all_some, beq_iff_eq] at *
    exact hF v h

/-
Claim theorems.
-/

/-- C1: on Linux, for every non-empty value V of XDG_CONFIG_HOME,
config_dir returns some of V joined (by the Unix path join, which
inserts the separator exactly when V does not already end in one) with
".config"; in particular the result is never the XDG value itself, so
the XDG variable acts as a parent base of the config directory. -/
theorem c1_linux_xdg_is_config_base (f : Bool) (e : Env) (pw : Option OsString)
    (V : OsString) (hset : e "XDG_CONFIG_HOME" = some V) (hne : V ≠ []) :
    config_dir .linux f e pw = some (push V CONFIG_DIR)
      ∧ config_dir .linux f e pw ≠ some V := by
  have hL : config_dir .linux f e pw = some (push V CONFIG_DIR) := by
    simp only [config_dir, var_os, hset, filter_nonEmpty_some hne]
    rfl
  refine ⟨hL, ?_⟩
  rw [hL]
  intro hEq
  have h2 : push V CONFIG_DIR = V := by injection hEq
  have h3 := @push_length V CONFIG_DIR (by decide) (by decide)
  rw [h2] at h3
  omega

/-- C1 witness: spec scenario 1, XDG_CONFIG_HOME=/custom/config. -/
theorem c1_witness :
    envC1 "XDG_CONFIG_HOME" = some (osStr "/custom/config")
      ∧ (config_dir .linux false envC1 none
            = some (push (osStr "/custom/config") CONFIG_DIR)
          ∧ config_dir .linux false envC1 none ≠ some (osStr "/custom/config")) :=
  ⟨by decide,
    c1_linux_xdg_is_config_base false envC1 none (osStr "/custom/config")
      (by decide) (by decide)⟩

/-- C3: on Linux, a non-empty XDG_DATA_HOME value is returned by
data_dir unchanged, and, independently, a non-empty XDG_CACHE_HOME
value is returned by cache_dir unchanged, with no suffix appended,
whatever the rest of the environment (the other XDG variable and HOME
included) and the user-database home hold: each conjunct carries only
its own variable's hypotheses. -/
theorem c3_linux_xdg_data_cache_verbatim (f : Bool) (e : Env) (pw : Option OsString)
    (V W : OsString) :
    (e "XDG_DATA_HOME" = some V → V ≠ [] → data_dir .linux f e pw = some V)
      ∧ (e "XDG_CACHE_HOME" = some W → W ≠ [] →
          cache_dir .linux f e pw = some W) := by
  constructor
  · intro hd hV
    simp only [data_dir, var_os, hd, filter_nonEmpty_some hV]
    rfl
  · intro hc hW
    simp only [cache_dir, var_os, hc, filter_nonEmpty_some hW]
    rfl

/-- C3 witness: spec scenario 4 in two environments, each with only
one of the two overrides set — XDG_DATA_HOME=/custom/data with
XDG_CACHE_HOME and HOME unset, and XDG_CACHE_HOME=/custom/cache with
XDG_DATA_HOME and HOME unset. -/
theorem c3_witness :
    envDataOnly "XDG_CACHE_HOME" = none
      ∧ data_dir .linux false envDataOnly none = some (osStr "/custom/data")
      ∧ envCacheOnly "XDG_DATA_HOME" = none
      ∧ cache_dir .linux false envCacheOnly none = some (osStr "/custom/cache") :=
  ⟨by decide,
    (c3_linux_xdg_data_cache_verbatim false envDataOnly none
        (osStr "/custom/data") []).1 (by decide) (by decide),
    by decide,
    (c3_linux_xdg_data_cache_verbatim false envCacheOnly none []
        (osStr "/custom/cache")).2 (by decide) (by decide)⟩

/-- C8: on any target OS other than Linux, macOS and Windows (the
final else branch of each operation), all three operations return
absence for every environment and every home value. -/
theorem c8_unsupported_os_absence (f : Bool) (e : Env) (pw : Option OsString) :
    config_dir .other f e pw = none ∧ data_dir .other f e pw = none
      ∧ cache_dir .other f e pw = none :=
  ⟨rfl, rfl, rfl⟩

/-- C9: on Linux the consulted XDG values are preserved byte for byte,
non-UTF-8 bytes included: any non-empty XDG_DATA_HOME / XDG_CACHE_HOME
value is returned unchanged by data_dir / cache_dir, and a non-empty
XDG_CONFIG_HOME value V yields V followed by the separator and
".config" — the extra premise that V carries no trailing separator
scopes over the config conjunct alone, since there the join inserts
the separator exactly when none is trailing (spec invariant I2). -/
theorem c9_linux_non_utf8_preserved (f : Bool) (e : Env) (pw : Option OsString)
    (V : OsString) (hV : V ≠ []) :
    (e "XDG_CONFIG_HOME" = some V → V.getLast? ≠ some sepByte →
        config_dir .linux f e pw = some (V ++ sepByte :: CONFIG_DIR))
      ∧ (e "XDG_DATA_HOME" = some V → data_dir .linux f e pw = some V)
      ∧ (e "XDG_CACHE_HOME" = some V → cache_dir .linux f e pw = some V) := by
  refine ⟨?_, ?_, ?_⟩
  · intro hset hlast
    have hp : push V CONFIG_DIR = V ++ sepByte :: CONFIG_DIR :=
      push_eq_append (by decide) hV hlast
    rw [← hp]
    simp only [config_dir, var_os, hset, filter_nonEmpty_some hV]
    rfl
  · intro hset
    simp only [data_dir, var_os, hset, filter_nonEmpty_some hV]
    rfl
  · intro hset
    simp only [cache_dir, var_os, hset, filter_nonEmpty_some hV]
    rfl

/-- C9 witness: spec scenario 9 with the three XDG overrides set to
the non-UTF-8 bytes "/tmp/" ++ [255, 254], and additionally the data
and cache overrides exercised on the trailing-separator non-UTF-8
bytes "/tmp/" ++ [255, 47], also returned unchanged. -/
theorem c9_witness :
    nonUtf8Base ≠ []
      ∧ config_dir .linux false envNonUtf8 none
          = some (nonUtf8Base ++ sepByte :: CONFIG_DIR)
      ∧ data_dir .linux false envNonUtf8 none = some nonUtf8Base
      ∧ cache_dir .linux false envNonUtf8 none = some nonUtf8Base
      ∧ data_dir .linux false envNonUtf8Slash none = some nonUtf8SlashBase
      ∧ cache_dir .linux false envNonUtf8Slash none = some nonUtf8SlashBase := by
  have h := c9_linux_non_utf8_preserved false envNonUtf8 none nonUtf8Base
    (by decide)
  have h2 := c9_linux_non_utf8_preserved false envNonUtf8Slash none
    nonUtf8SlashBase (by decide)
  exact ⟨by decide, h.1 (by decide) (by decide), h.2.1 (by decide),
    h.2.2 (by decide), h2.2.1 (by decide), h2.2.2 (by decide)⟩

/-- C4: for each of the three operations, every target OS, every
feature setting, every variable name k and every environment, the
operation with k bound to the empty string equals the operation with k
unset: the non-empty filter is applied to every environment value,
including the HOME value read inside home_dir, before it is accepted. -/
theorem c4_empty_env_equals_unset (os : TargetOS) (f : Bool) (e : Env)
    (pw : Option OsString) (k : String) :
    config_dir os f (setVar e k []) pw = config_dir os f (unsetVar e k) pw
      ∧ data_dir os f (setVar e k []) pw = data_dir os f (unsetVar e k) pw
      ∧ cache_dir os f (setVar e k []) pw = cache_dir os f (unsetVar e k) pw := by
  cases os with
  | linux =>
    refine ⟨?_, ?_, ?_⟩ <;>
      (simp only [config_dir, data_dir, cache_dir, var_os]
       rw [home_dir_set_unset, filter_set_unset])
  | macos =>
    refine ⟨?_, ?_, ?_⟩ <;>
      (simp only [config_dir, data_dir, cache_dir]
       rw [home_dir_set_unset])
  | windows =>
    refine ⟨?_, ?_, ?_⟩ <;>
      (simp only [config_dir, data_dir, cache_dir, var_os]
       rw [filter_set_unset])
  | other => exact ⟨rfl, rfl, rfl⟩

/-- C6: on macOS each operation is a function of home_dir alone: two
situations with the same home_dir answer give the same results; each
result is home joined with the Linux-style suffix (.config,
.local/share, .cache) when favor-xdg-style is on and the Apple Library
suffix (Library/Application Support twice, Library/Caches) otherwise,
and an absent home gives absence (the map over none); replacing any of
the three XDG variables, by any value or by unset, changes nothing. -/
theorem c6_macos_function_of_home (f : Bool) (e e2 : Env)
    (pw pw2 : Option OsString) (hhome : home_dir e2 pw2 = home_dir e pw) :
    (config_dir .macos f e2 pw2 = config_dir .macos f e pw
        ∧ data_dir .macos f e2 pw2 = data_dir .macos f e pw
        ∧ cache_dir .macos f e2 pw2 = cache_dir .macos f e pw)
      ∧ (config_dir .macos f e pw = (home_dir e pw).map
            (fun h => push h (if f then CONFIG_DIR else APPLE_APP_SUPPORT))
          ∧ data_dir .macos f e pw = (home_dir e pw).map
              (fun h => push h (if f then DATA_DIR else APPLE_APP_SUPPORT))
          ∧ cache_dir .macos f e pw = (home_dir e pw).map
              (fun h => push h (if f then CACHE_DIR else APPLE_CACHES)))
      ∧ (∀ ov1 ov2 ov3 : Option OsString,
          config_dir .macos f
              (updVar (updVar (updVar e "XDG_CONFIG_HOME" ov1)
                "XDG_DATA_HOME" ov2) "XDG_CACHE_HOME" ov3) pw
            = config_dir .macos f e pw
          ∧ data_dir .macos f
              (updVar (updVar (updVar e "XDG_CONFIG_HOME" ov1)
                "XDG_DATA_HOME" ov2) "XDG_CACHE_HOME" ov3) pw
            = data_dir .macos f e pw
          ∧ cache_dir .macos f
              (updVar (updVar (updVar e "XDG_CONFIG_HOME" ov1)
                "XDG_DATA_HOME" ov2) "XDG_CACHE_HOME" ov3) pw
            = cache_dir .macos f e pw) := by
  refine ⟨?_, ?_, ?_⟩
  · refine ⟨?_, ?_, ?_⟩ <;>
      (simp only [config_dir, data_dir, cache_dir]
       rw [hhome])
  · refine ⟨?_, ?_, ?_⟩ <;>
      (simp only [config_dir, data_dir, cache_dir]
       cases hh : home_dir e pw with
       | none => rfl
       | some h0 =>
         cases f with
         | true => rfl
         | false => simp [push_lib_app_support, push_lib_caches])
  · intro ov1 ov2 ov3
    have hu : home_dir
        (updVar (updVar (updVar e "XDG_CONFIG_HOME" ov1)
          "XDG_DATA_HOME" ov2) "XDG_CACHE_HOME" ov3) pw = home_dir e pw := by
      rw [home_dir_upd_ne _ _ _ _ (by decide),
        home_dir_upd_ne _ _ _ _ (by decide),
        home_dir_upd_ne _ _ _ _ (by decide)]
    refine ⟨?_, ?_, ?_⟩ <;>
      (simp only [config_dir, data_dir, cache_dir]
       rw [hu])

/-- C7: on Windows, config_dir returns absence exactly when APPDATA is
unset or empty, and data_dir and cache_dir return absence exactly when
LOCALAPPDATA is unset or empty; neither the HOME variable nor the
user-database home is ever consulted. -/
theorem c7_windows_absence_iff (f : Bool) (e : Env) (pw : Option OsString) :
    (config_dir .windows f e pw = none
        ↔ e "APPDATA" = none ∨ e "APPDATA" = some [])
      ∧ (data_dir .windows f e pw = none
          ↔ e "LOCALAPPDATA" = none ∨ e "LOCALAPPDATA" = some [])
      ∧ (cache_dir .windows f e pw = none
          ↔ e "LOCALAPPDATA" = none ∨ e "LOCALAPPDATA" = some [])
      ∧ (∀ (ov : Option OsString) (pw2 : Option OsString),
          config_dir .windows f (updVar e "HOME" ov) pw2
              = config_dir .windows f e pw
            ∧ data_dir .windows f (updVar e "HOME" ov) pw2
                = data_dir .windows f e pw
            ∧ cache_dir .windows f (updVar e "HOME" ov) pw2
                = cache_dir .windows f e pw) := by
  refine ⟨filter_empty_eq_none_iff _, filter_empty_eq_none_iff _,
    filter_empty_eq_none_iff _, ?_⟩
  intro ov pw2
  refine ⟨?_, ?_, ?_⟩ <;>
    (simp only [config_dir, data_dir, cache_dir, var_os]
     rw [upd_ne e "HOME" ov (by decide)])

/-- C6 witness: on macOS with HOME=/Users/testuser, adding an
XDG_CONFIG_HOME override leaves config_dir unchanged. -/
theorem c6_witness :
    home_dir envMacHomeXdg none = home_dir envMacHome none
      ∧ config_dir .macos false envMacHomeXdg none
          = config_dir .macos false envMacHome none :=
  ⟨by decide,
    (c6_macos_function_of_home false envMacHome envMacHomeXdg none none
        (by decide)).1.1⟩

/-- C2 counterexample: on Linux with XDG_CONFIG_HOME=/custom/config,
config_dir returns /custom/config/.config while the spec section 4.2
resolve primitive instantiated with the config_dir table row returns
/custom/config itself, so the claimed extensional equality fails. -/
theorem c2_counterexample :
    config_dir .linux false envC1 none ≠ spec_config_dir .linux false envC1 none := by
  decide

/-- C2 amended: data_dir and cache_dir are extensionally equal to the
resolve primitive instantiated with their table rows on every OS and
flag, and so is config_dir except on Linux with a non-empty
XDG_CONFIG_HOME, where config_dir appends ".config" to the override
instead of returning it. -/
theorem c2_amended_resolve_tables (os : TargetOS) (f : Bool) (e : Env)
    (pw : Option OsString) :
    data_dir os f e pw = spec_data_dir os f e pw
      ∧ cache_dir os f e pw = spec_cache_dir os f e pw
      ∧ config_dir os f e pw =
          (match os, lookup_env e "XDG_CONFIG_HOME" with
           | .linux, some v => some (push v CONFIG_DIR)
           | _, _ => spec_config_dir os f e pw) := by
  refine ⟨?_, ?_, ?_⟩
  · cases os with
    | linux =>
      simp only [data_dir, spec_data_dir, resolve, dataEnvKey, dataHomeSfx,
        lookup_env, var_os, Option.some_bind]
      cases hx : (e "XDG_DATA_HOME").filter (fun s => !s.isEmpty) <;> simp [hx]
    | macos =>
      simp only [data_dir, spec_data_dir, resolve, dataEnvKey, dataHomeSfx,
        Option.none_bind]
      cases f with
      | true => rfl
      | false =>
        cases hh : home_dir e pw <;> simp [hh, push_lib_app_support]
    | windows =>
      simp only [data_dir, spec_data_dir, resolve, dataEnvKey, dataHomeSfx,
        lookup_env, var_os, Option.some_bind]
      cases hx : (e "LOCALAPPDATA").filter (fun s => !s.isEmpty) <;> simp [hx]
    | other => rfl
  · cases os with
    | linux =>
      simp only [cache_dir, spec_cache_dir, resolve, cacheEnvKey, cacheHomeSfx,
        lookup_env, var_os, Option.some_bind]
      cases hx : (e "XDG_CACHE_HOME").filter (fun s => !s.isEmpty) <;> simp [hx]
    | macos =>
      simp only [cache_dir, spec_cache_dir, resolve, cacheEnvKey, cacheHomeSfx,
        Option.none_bind]
      cases f with
      | true => rfl
      | false =>
        cases hh : home_dir e pw <;> simp [hh, push_lib_caches]
    | windows =>
      simp only [cache_dir, spec_cache_dir, resolve, cacheEnvKey, cacheHomeSfx,
        lookup_env, var_os, Option.some_bind]
      cases hx : (e "LOCALAPPDATA").filter (fun s => !s.isEmpty) <;> simp [hx]
    | other => rfl
  · cases os with
    | linux =>
      cases hx : lookup_env e "XDG_CONFIG_HOME" with
      | some v =>
        simp only [lookup_env] at hx
        simp [config_dir, var_os, hx]
      | none =>
        simp only [lookup_env] at hx
        simp only [config_dir, spec_config_dir, resolve, configEnvKey,
          configHomeSfx, lookup_env, var_os, Option.some_bind, hx]
        rfl
    | macos =>
      cases hx : lookup_env e "XDG_CONFIG_HOME" <;>
        (simp only [config_dir, spec_config_dir, resolve, configEnvKey,
          configHomeSfx, Option.none_bind]
         cases f with
         | true => rfl
         | false =>
           cases hh : home_dir e pw <;> simp [hh, push_lib_app_support])
    | windows =>
      cases hx : lookup_env e "XDG_CONFIG_HOME" <;>
        (simp only [config_dir, spec_config_dir, resolve, configEnvKey,
          configHomeSfx, lookup_env, var_os, Option.some_bind]
         cases hy : (e "APPDATA").filter (fun s => !s.isEmpty) <;> simp [hy])
    | other =>
      cases hx : lookup_env e "XDG_CONFIG_HOME" <;> rfl

/-- C5 counterexample: on Linux with XDG_CONFIG_HOME holding the
relative value "rel", config_dir returns the present path
"rel/.config", which is not absolute, so a present result is not
always absolute. -/
theorem c5_counterexample :
    config_dir .linux false envRelXdg none = some (osStr "rel/.config")
      ∧ is_absolute .linux (osStr "rel/.config") = false :=
  ⟨by decide, by decide⟩

/-- C5 amended: for every operation, target OS, environment and home
value, whenever every source a query can draw from (the six consulted
environment variables and the user-database home, the convention of
spec invariant I1) is absolute under the path semantics of the OS, a
present result is absolute under those semantics. -/
theorem c5_amended_absolute_of_sources (os : TargetOS) (f : Bool) (e : Env)
    (pw : Option OsString) (habs : absSources os e pw = true) :
    (config_dir os f e pw).all (is_absolute os) = true
      ∧ (data_dir os f e pw).all (is_absolute os) = true
      ∧ (cache_dir os f e pw).all (is_absolute os) = true := by
  simp only [absSources, List.all_cons, List.all_nil, Bool.and_true,
    Bool.and_eq_true] at habs
  obtain ⟨⟨hcfg, hdata, hcache, hhome, happ, hlapp⟩, hpw⟩ := habs
  cases os with
  | other => exact ⟨rfl, rfl, rfl⟩
  | windows =>
    exact ⟨opt_all_filter _ _ _ happ, opt_all_filter _ _ _ hlapp,
      opt_all_filter _ _ _ hlapp⟩
  | linux =>
    refine ⟨?_, ?_, ?_⟩
    · exact opt_all_map _ _ (fun b hb => push_head_abs _ hb)
        (opt_all_orElse _ _ _ (opt_all_filter _ _ _ hcfg)
          (home_dir_all e pw _ hhome hpw))
    · exact opt_all_orElse _ _ _ (opt_all_filter _ _ _ hdata)
        (opt_all_map _ _ (fun b hb => push_head_abs _ hb)
          (home_dir_all e pw _ hhome hpw))
    · exact opt_all_orElse _ _ _ (opt_all_filter _ _ _ hcache)
        (opt_all_map _ _ (fun b hb => push_head_abs _ hb)
          (home_dir_all e pw _ hhome hpw))
  | macos =>
    refine ⟨?_, ?_, ?_⟩ <;>
      exact opt_all_map _ _
        (by
          intro b hb
          cases f with
          | true => simpa using push_head_abs _ hb
          | false => simpa using push_head_abs _ (push_head_abs _ hb))
        (home_dir_all e pw _ hhome hpw)

/-- C5 witness: on Linux with every source set to the absolute path
/abs, the source condition holds and all three results are absolute. -/
theorem c5_witness :
    absSources .linux envAllAbs (some (osStr "/abs")) = true
      ∧ ((config_dir .linux false envAllAbs (some (osStr "/abs"))).all
            (is_absolute .linux) = true
          ∧ (data_dir .linux false envAllAbs (some (osStr "/abs"))).all
              (is_absolute .linux) = true
          ∧ (cache_dir .linux false envAllAbs (some (osStr "/abs"))).all
              (is_absolute .linux) = true) :=
  ⟨by decide,
    c5_amended_absolute_of_sources .linux false envAllAbs
      (some (osStr "/abs")) (by decide)⟩

end DirsLite
